import Mathlib

/-!
Shallow embedding of the chatBot-gemini server core: the Socket.io
connection/session lifecycle and message-broadcast coordinator.

The repository ships two server variants:
* variant 1 ("Buddy" server, with a per-connection rolling `userMemory`);
* variant 2 (no memory, with an inner `aiError` catch that broadcasts an
  `ai_message` of type `ai_error`).

Shared state is `connectedUsers : Map socketId {username, joinTime}`,
and in variant 1 additionally `userMemory : Map socketId Turn[]`.
Events are handled by pure functions returning the new state together
with the ordered list of outbound emissions.  `Date.now()` readings and
the outcome of `model.generateContent` are passed in as parameters.
-/

/-- Connection (socket) identifier. -/
abbrev ConnId := Nat

/-- Role of one turn in the rolling history (`role: 'user' | 'assistant'`). -/
inductive Role where
  | user
  | assistant
deriving DecidableEq, Repr

/-- One entry of `userMemory`: `{ role, content }`. -/
structure Turn where
  role : Role
  content : String
deriving DecidableEq, Repr

/-- Session Registry entry: `{ username, joinTime: new Date() }`
(`joinTime` modelled as a millisecond timestamp). -/
structure Participant where
  username : String
  joinTime : Nat
deriving DecidableEq, Repr

/-- Destination of an outbound emission: `io.emit` (all connections),
`socket.broadcast.emit` (all but the sender), `socket.emit` (sender only). -/
inductive Dest where
  | toAll
  | toOthers (sender : ConnId)
  | toSender (s : ConnId)
deriving DecidableEq, Repr

/-- Outbound events with the payload fields the claims are about
(ids are `Date.now()` millisecond values; ISO timestamp strings are
carried along as the clock value for faithfulness of the field list). -/
inductive OutEvent where
  | user_joined (username message : String)
  | user_message (id : Nat) (username message : String)
  | ai_message (id : Nat) (username message type_ : String)
  | user_left (username message : String)
  | user_count (count : Nat)
  | user_typing (username : String) (isTyping : Bool)
  | error (message : String)
deriving DecidableEq, Repr

/-- One outbound emission: destination plus event. -/
abbrev Emit := Dest × OutEvent

/-- JS `Map` as an insertion-ordered association list. -/
abbrev JsMap (α : Type) := List (ConnId × α)

/-- `Map.get(k)` — first (unique) entry with this key. -/
def mapGet {α : Type} (m : JsMap α) (k : ConnId) : Option α :=
  (m.find? (fun p => p.1 == k)).map Prod.snd

/-- `Map.set(k, v)` — replace in place if the key is present (JS `Map.set`
keeps the original insertion position), otherwise append. -/
def mapSet {α : Type} (m : JsMap α) (k : ConnId) (v : α) : JsMap α :=
  if (m.find? (fun p => p.1 == k)).isSome then
    m.map (fun p => if p.1 == k then (k, v) else p)
  else
    m ++ [(k, v)]

/-- `Map.delete(k)`. -/
def mapDelete {α : Type} (m : JsMap α) (k : ConnId) : JsMap α :=
  m.filter (fun p => p.1 != k)

/-- `Map.size`. -/
def mapSize {α : Type} (m : JsMap α) : Nat := m.length

/-- Variant-1 server state: `connectedUsers` and `userMemory`. -/
structure ServerState where
  connectedUsers : JsMap Participant
  userMemory : JsMap (List Turn)
deriving DecidableEq, Repr

/-- Variant-2 server state: only `connectedUsers`. -/
structure ServerState2 where
  connectedUsers : JsMap Participant
deriving DecidableEq, Repr

/-- Inbound `message` payload `{ message, username }`. -/
structure MessageData where
  message : String
  username : String
deriving DecidableEq, Repr

/-- Outcome of `await model.generateContent(prompt)` followed by
`result.response.text()`: either the reply text or a thrown error. -/
abbrev AiResult := Except Unit String

/-- `user_join` handler (identical in both variants), acting on the
registry: stores `{username, joinTime: now}` under the socket id,
broadcasts `user_joined` to the others, emits `user_count` to all. -/
def handleUserJoin (users : JsMap Participant) (sid : ConnId)
    (username : String) (now : Nat) : JsMap Participant × List Emit :=
  let users' := mapSet users sid ⟨username, now⟩
  (users',
    [(Dest.toOthers sid, OutEvent.user_joined username (username ++ " joined the chat")),
     (Dest.toAll, OutEvent.user_count (mapSize users'))])

/-- Variant-1 `message` handler ("Buddy" memory).  `t1` is `Date.now()`
at the `user_message` emit, `t2` is `Date.now()` at the `ai_message`
emit.  The in-place pushes/shift on `chatHistory` happen before the
`await`, so the user turn (with the cap check) is retained in
`userMemory` even when generation throws; the throw is caught by the
handler's outer `catch`, which emits `error` to the sender. -/
def handleMessage1 (st : ServerState) (sid : ConnId) (md : MessageData)
    (t1 t2 : Nat) (ai : AiResult) : ServerState × List Emit :=
  match mapGet st.connectedUsers sid with
  | none => (st, [(Dest.toSender sid, OutEvent.error "User not found. Please reconnect.")])
  | some _ =>
    let ev1 : Emit := (Dest.toAll, OutEvent.user_message t1 md.username md.message)
    let hist0 := (mapGet st.userMemory sid).getD []
    let hist1 := hist0 ++ [⟨Role.user, md.message⟩]
    let hist2 := if hist1.length > 10 then hist1.tail else hist1
    match ai with
    | Except.ok aiResponse =>
      let hist3 := hist2 ++ [⟨Role.assistant, aiResponse⟩]
      ({ st with userMemory := mapSet st.userMemory sid hist3 },
        [ev1, (Dest.toAll, OutEvent.ai_message (t2 + 1) "AI Assistant" aiResponse "ai")])
    | Except.error _ =>
      ({ st with userMemory := mapSet st.userMemory sid hist2 },
        [ev1, (Dest.toSender sid, OutEvent.error "Failed to process message")])

/-- Variant-2 `message` handler: no memory; the generation call sits in
an inner `try`/`catch (aiError)` whose handler broadcasts an
`ai_message` of type `ai_error` to all connections. -/
def handleMessage2 (st : ServerState2) (sid : ConnId) (md : MessageData)
    (t1 t2 : Nat) (ai : AiResult) : ServerState2 × List Emit :=
  match mapGet st.connectedUsers sid with
  | none => (st, [(Dest.toSender sid, OutEvent.error "User not found. Please reconnect.")])
  | some _ =>
    let ev1 : Emit := (Dest.toAll, OutEvent.user_message t1 md.username md.message)
    match ai with
    | Except.ok aiResponse =>
      (st, [ev1, (Dest.toAll, OutEvent.ai_message (t2 + 1) "AI Assistant" aiResponse "ai")])
    | Except.error _ =>
      (st, [ev1, (Dest.toAll, OutEvent.ai_message (t2 + 1) "AI Assistant"
        "Sorry, I encountered an error while processing your message. Please try again."
        "ai_error")])

/-- `typing` handler (identical in both variants): registered senders
get their typing notification re-broadcast to the others with the
registry-stored username; unregistered senders are silently ignored.
No state change. -/
def handleTyping (users : JsMap Participant) (sid : ConnId)
    (isTyping : Bool) : List Emit :=
  match mapGet users sid with
  | none => []
  | some u => [(Dest.toOthers sid, OutEvent.user_typing u.username isTyping)]

/-- Variant-1 `disconnect` handler: only if the connection had joined,
broadcast `user_left` to the others, drop the registry and memory
entries, and emit the updated `user_count` to all. -/
def handleDisconnect (st : ServerState) (sid : ConnId) : ServerState × List Emit :=
  match mapGet st.connectedUsers sid with
  | none => (st, [])
  | some u =>
    let users' := mapDelete st.connectedUsers sid
    (⟨users', mapDelete st.userMemory sid⟩,
      [(Dest.toOthers sid, OutEvent.user_left u.username (u.username ++ " left the chat")),
       (Dest.toAll, OutEvent.user_count (mapSize users'))])

/-- `historyString` construction of variant 1:
`chatHistory.map(msg => ...).join('\n')`. -/
def historyString (hist : List Turn) : String :=
  String.intercalate "\n"
    (hist.map (fun msg =>
      (if msg.role = Role.user then "User" else "Buddy") ++ ": " ++ msg.content))

/-- Inbound events on one connection, carrying the environment values
(clock readings, generation outcome) the handler consumes. -/
inductive InEvent where
  | join (username : String) (now : Nat)
  | msg (md : MessageData) (t1 t2 : Nat) (ai : AiResult)
  | typing (isTyping : Bool)
  | disconnect
deriving Repr

/-- Dispatch of one inbound event on one connection (variant 1). -/
def step (st : ServerState) (sid : ConnId) : InEvent → ServerState × List Emit
  | InEvent.join username now =>
    let (users', evs) := handleUserJoin st.connectedUsers sid username now
    ({ st with connectedUsers := users' }, evs)
  | InEvent.msg md t1 t2 ai => handleMessage1 st sid md t1 t2 ai
  | InEvent.typing b => (st, handleTyping st.connectedUsers sid b)
  | InEvent.disconnect => handleDisconnect st sid

/-- Run a sequence of inbound events on one connection, keeping the
final state (variant 1). -/
def runTrace (st : ServerState) (sid : ConnId) (es : List InEvent) : ServerState :=
  es.foldl (fun s e => (step s sid e).1) st

/-- Recognizer for `ai_message` events. -/
def isAiMessage : OutEvent → Bool
  | OutEvent.ai_message _ _ _ _ => true
  | _ => false

/-- Recognizer for `user_message` events. -/
def isUserMessage : OutEvent → Bool
  | OutEvent.user_message _ _ _ => true
  | _ => false

/-- Recognizer for `user_count` events. -/
def isUserCount : OutEvent → Bool
  | OutEvent.user_count _ => true
  | _ => false

/-- Every `ai_message` in the emission list occurs at a strictly later
position than some `user_message`. -/
def userBeforeAi (l : List Emit) : Prop :=
  ∀ i : Fin l.length, isAiMessage (l.get i).2 = true →
    ∃ j : Fin l.length, j.val < i.val ∧ isUserMessage (l.get j).2 = true

/-- The `id` field of the first `user_message` in an emission list. -/
def firstUserMessageId (l : List Emit) : Option Nat :=
  l.findSome? (fun e => match e.2 with
    | OutEvent.user_message id _ _ => some id
    | _ => none)

/-- The `id` field of the first `ai_message` in an emission list. -/
def firstAiMessageId (l : List Emit) : Option Nat :=
  l.findSome? (fun e => match e.2 with
    | OutEvent.ai_message id _ _ _ => some id
    | _ => none)

/-- Role label used in the rendered prompt context. -/
def roleLabel : Role → String
  | Role.user => "User"
  | Role.assistant => "Buddy"

/-- Spec-side rendering of the prompt context, following the spec's
words: the turns concatenated in chronological order (oldest first),
one line per turn formatted as `<Role>: <content>` with role label
`User` for user turns and `Buddy` for assistant turns, joined by
newline characters. -/
def renderSpec : List Turn → String
  | [] => ""
  | [t] => roleLabel t.role ++ ": " ++ t.content
  | t :: t' :: ts => roleLabel t.role ++ ": " ++ t.content ++ "\n" ++ renderSpec (t' :: ts)

/-! ### Association-list map lemmas -/

theorem mapGet_nil {α : Type} (k : ConnId) : mapGet ([] : JsMap α) k = none := rfl

theorem mapGet_cons {α : Type} (a : ConnId × α) (m : JsMap α) (k : ConnId) :
    mapGet (a :: m) k = if (a.1 == k) = true then some a.2 else mapGet m k := by
  by_cases h : (a.1 == k) = true
  · simp [mapGet, List.find?_cons_of_pos, h]
  · simp [mapGet, List.find?_cons_of_neg, h]

theorem mapGet_append_single {α : Type} (m : JsMap α) (k : ConnId) (v : α)
    (h : ∀ p ∈ m, (p.1 == k) = false) : mapGet (m ++ [(k, v)]) k = some v := by
  induction m with
  | nil => simp [mapGet_cons, mapGet_nil]
  | cons a as ih =>
    have ha := h a (List.mem_cons_self a as)
    rw [List.cons_append, mapGet_cons, if_neg (by simp [ha])]
    exact ih fun p hp => h p (List.mem_cons_of_mem _ hp)

theorem mapGet_replace {α : Type} (m : JsMap α) (k : ConnId) (v : α)
    (h : (m.find? (fun p => p.1 == k)).isSome = true) :
    mapGet (m.map (fun p => if p.1 == k then (k, v) else p)) k = some v := by
  induction m with
  | nil => simp at h
  | cons a as ih =>
    by_cases hk : (a.1 == k) = true
    · simp only [List.map_cons, hk, if_true, mapGet_cons]
      simp
    · rw [List.find?_cons_of_neg _ (by simp [hk])] at h
      simp only [List.map_cons, hk, if_false]
      rw [mapGet_cons, if_neg (by simp [hk])]
      exact ih h

theorem mapGet_set_self {α : Type} (m : JsMap α) (k : ConnId) (v : α) :
    mapGet (mapSet m k v) k = some v := by
  unfold mapSet
  cases hf : m.find? (fun p => p.1 == k) with
  | none =>
    simp only [hf, Option.isSome_none, Bool.false_eq_true, if_false]
    exact mapGet_append_single m k v (by
      intro p hp
      have := List.find?_eq_none.mp hf p hp
      simpa using this)
  | some w =>
    simp only [hf, Option.isSome_some, if_true]
    exact mapGet_replace m k v (by simp [hf])

theorem mapGet_replace_ne {α : Type} (m : JsMap α) (k k' : ConnId) (v : α) (h : k' ≠ k) :
    mapGet (m.map (fun p => if p.1 == k then (k, v) else p)) k' = mapGet m k' := by
  induction m with
  | nil => rfl
  | cons a as ih =>
    by_cases hk : (a.1 == k) = true
    · have hak : a.1 = k := by simpa using hk
      have h1 : (k == k') = false := by simpa using fun e => h e.symm
      have h2 : (a.1 == k') = false := by simpa [hak] using fun e => h e.symm
      simp only [List.map_cons, hk, if_true]
      rw [mapGet_cons, mapGet_cons, if_neg (by simp [h1]), if_neg (by simp [h2])]
      exact ih
    · simp only [List.map_cons, hk, if_false]
      rw [mapGet_cons, mapGet_cons]
      by_cases hk' : (a.1 == k') = true
      · simp [hk']
      · rw [if_neg (by simp [hk']), if_neg (by simp [hk'])]
        exact ih

theorem mapGet_append_single_ne {α : Type} (m : JsMap α) (k k' : ConnId) (v : α) (h : k' ≠ k) :
    mapGet (m ++ [(k, v)]) k' = mapGet m k' := by
  have h1 : (k == k') = false := by simpa using fun e => h e.symm
  induction m with
  | nil => simp [mapGet_cons, mapGet_nil, h1]
  | cons a as ih =>
    rw [List.cons_append, mapGet_cons, mapGet_cons]
    by_cases hk' : (a.1 == k') = true
    · simp [hk']
    · rw [if_neg (by simp [hk']), if_neg (by simp [hk'])]
      exact ih

theorem mapGet_set_ne {α : Type} (m : JsMap α) (k k' : ConnId) (v : α) (h : k' ≠ k) :
    mapGet (mapSet m k v) k' = mapGet m k' := by
  unfold mapSet
  cases hf : m.find? (fun p => p.1 == k) with
  | none =>
    simp only [hf, Option.isSome_none, Bool.false_eq_true, if_false]
    exact mapGet_append_single_ne m k k' v h
  | some w =>
    simp only [hf, Option.isSome_some, if_true]
    exact mapGet_replace_ne m k k' v h

/-! ### Helper lemmas for ordering and rendering -/

theorem intercalate_go_append (s : String) (l : List String) :
    ∀ (x y : String), String.intercalate.go (x ++ y) s l = x ++ String.intercalate.go y s l := by
  induction l with
  | nil => intro x y; rfl
  | cons a as ih =>
    intro x y
    show String.intercalate.go (x ++ y ++ s ++ a) s as = x ++ String.intercalate.go (y ++ s ++ a) s as
    rw [String.append_assoc x y s, String.append_assoc x (y ++ s) a]
    exact ih x (y ++ s ++ a)

theorem not_ai_of_user (e : OutEvent) (h : isUserMessage e = true) : isAiMessage e = false := by
  cases e <;> simp [isUserMessage, isAiMessage] at h ⊢

theorem userBeforeAi_single (a : Emit) (h : isAiMessage a.2 = false) : userBeforeAi [a] := by
  intro i hi
  fin_cases i
  · simp only [List.get] at hi
    rw [h] at hi
    exact absurd hi (by simp)

theorem userBeforeAi_pair (a b : Emit) (ha : isUserMessage a.2 = true) : userBeforeAi [a, b] := by
  intro i hi
  fin_cases i
  · simp only [List.get] at hi
    rw [not_ai_of_user a.2 ha] at hi
    exact absurd hi (by simp)
  · exact ⟨⟨0, by norm_num⟩, by norm_num, ha⟩

/-! ### Claim theorems -/

/-- C1: the claim says the per-connection context length never exceeds
the cap of 10 entries.  The code violates this: the cap check runs only
after the user-turn push, never after the assistant-turn push, so after
a join followed by six message events with successful AI replies the
context holds 11 entries (and grows by one on every further message). -/
theorem c1_context_cap_overflow :
    ((mapGet (runTrace ⟨[], []⟩ 0
        (InEvent.join "Alice" 0 ::
          List.replicate 6 (InEvent.msg ⟨"hi", "Alice"⟩ 100 100 (Except.ok "yo")))).userMemory
      0).getD []).length = 11 := by decide

/-- C2 counterexample: in the first (memory-enabled) server variant a
failing AI generation call produces no `ai_message` at all — the outer
catch emits a plain `error` to the sender — so the claim that exactly
one `ai_message` of type `ai_error` is broadcast is false there. -/
theorem c2_counterexample :
    ((handleMessage1 ⟨[(0, ⟨"Alice", 5⟩)], []⟩ 0 ⟨"hi", "Alice"⟩ 1000 1005
      (Except.error ())).2.countP (fun e => isAiMessage e.2)) = 0 := by decide

/-- C2 (amended): when the AI generation call fails, the failure never
propagates and the sender's registry entry is unchanged in both server
variants; the second variant broadcasts exactly one `ai_message` of
type `ai_error` to all connections, while the first variant emits
exactly one `error` event directly to the sender and no `ai_message`. -/
theorem c2_ai_failure_contained (st : ServerState) (st2 : ServerState2) (sid : ConnId)
    (md : MessageData) (t1 t2 : Nat) (u v : Participant)
    (h1 : mapGet st.connectedUsers sid = some u)
    (h2 : mapGet st2.connectedUsers sid = some v) :
    (handleMessage1 st sid md t1 t2 (Except.error ())).1.connectedUsers = st.connectedUsers ∧
    (handleMessage1 st sid md t1 t2 (Except.error ())).2 =
      [(Dest.toAll, OutEvent.user_message t1 md.username md.message),
       (Dest.toSender sid, OutEvent.error "Failed to process message")] ∧
    handleMessage2 st2 sid md t1 t2 (Except.error ()) =
      (st2, [(Dest.toAll, OutEvent.user_message t1 md.username md.message),
        (Dest.toAll, OutEvent.ai_message (t2 + 1) "AI Assistant"
          "Sorry, I encountered an error while processing your message. Please try again."
          "ai_error")]) := by
  refine ⟨?_, ?_, ?_⟩ <;> simp [handleMessage1, handleMessage2, h1, h2]

/-- Witness for C2 at a concrete joined connection. -/
theorem c2_witness :
    (handleMessage1 ⟨[(0, ⟨"Alice", 5⟩)], []⟩ 0 ⟨"hi", "Alice"⟩ 1000 1005
        (Except.error ())).1.connectedUsers = [(0, ⟨"Alice", 5⟩)] ∧
    (handleMessage1 ⟨[(0, ⟨"Alice", 5⟩)], []⟩ 0 ⟨"hi", "Alice"⟩ 1000 1005
        (Except.error ())).2 =
      [(Dest.toAll, OutEvent.user_message 1000 "Alice" "hi"),
       (Dest.toSender 0, OutEvent.error "Failed to process message")] ∧
    handleMessage2 ⟨[(0, ⟨"Bob", 7⟩)]⟩ 0 ⟨"hi", "Alice"⟩ 1000 1005 (Except.error ()) =
      (⟨[(0, ⟨"Bob", 7⟩)]⟩, [(Dest.toAll, OutEvent.user_message 1000 "Alice" "hi"),
        (Dest.toAll, OutEvent.ai_message 1006 "AI Assistant"
          "Sorry, I encountered an error while processing your message. Please try again."
          "ai_error")]) :=
  c2_ai_failure_contained ⟨[(0, ⟨"Alice", 5⟩)], []⟩ ⟨[(0, ⟨"Bob", 7⟩)]⟩ 0 ⟨"hi", "Alice"⟩
    1000 1005 ⟨"Alice", 5⟩ ⟨"Bob", 7⟩ rfl rfl

/-- C3: in both server variants every `ai_message` emitted by the
`message` handler occurs strictly after a `user_message` in the
handler's emission order, and for a registered sender the very first
emission is the `user_message` broadcast to all connections —
independently of the AI outcome and of the clock readings (AI latency). -/
theorem c3_user_message_before_ai (st : ServerState) (st2 : ServerState2) (sid : ConnId)
    (md : MessageData) (t1 t2 : Nat) (ai : AiResult) :
    userBeforeAi (handleMessage1 st sid md t1 t2 ai).2 ∧
    userBeforeAi (handleMessage2 st2 sid md t1 t2 ai).2 ∧
    (∀ u, mapGet st.connectedUsers sid = some u →
      (handleMessage1 st sid md t1 t2 ai).2.head? =
        some (Dest.toAll, OutEvent.user_message t1 md.username md.message)) ∧
    (∀ v, mapGet st2.connectedUsers sid = some v →
      (handleMessage2 st2 sid md t1 t2 ai).2.head? =
        some (Dest.toAll, OutEvent.user_message t1 md.username md.message)) := by
  refine ⟨?_, ?_, ?_, ?_⟩
  · unfold handleMessage1
    cases mapGet st.connectedUsers sid with
    | none => exact userBeforeAi_single _ rfl
    | some u => cases ai with
      | ok r => exact userBeforeAi_pair _ _ rfl
      | error e => exact userBeforeAi_pair _ _ rfl
  · unfold handleMessage2
    cases mapGet st2.connectedUsers sid with
    | none => exact userBeforeAi_single _ rfl
    | some u => cases ai with
      | ok r => exact userBeforeAi_pair _ _ rfl
      | error e => exact userBeforeAi_pair _ _ rfl
  · intro u hu
    unfold handleMessage1
    rw [hu]
    cases ai <;> rfl
  · intro v hv
    unfold handleMessage2
    rw [hv]
    cases ai <;> rfl

/-- Witness for C3 at a concrete joined connection. -/
theorem c3_witness :
    (handleMessage1 ⟨[(0, ⟨"Alice", 5⟩)], []⟩ 0 ⟨"hi", "Alice"⟩ 1000 1005
        (Except.ok "yo")).2.head? =
      some (Dest.toAll, OutEvent.user_message 1000 "Alice" "hi") :=
  (c3_user_message_before_ai ⟨[(0, ⟨"Alice", 5⟩)], []⟩ ⟨[]⟩ 0 ⟨"hi", "Alice"⟩ 1000 1005
    (Except.ok "yo")).2.2.1 ⟨"Alice", 5⟩ rfl

/-- C4 counterexample: a `disconnect` of a connection that never joined
emits nothing at all — in particular no `user_count` — so the claim
that a `user_count` event is emitted on every disconnect, including of
a never-joined connection, is false. -/
theorem c4_counterexample :
    ((handleDisconnect ⟨[(1, ⟨"Bob", 5⟩)], []⟩ 0).2.countP (fun e => isUserCount e.2)) = 0 := by
  decide

/-- C4 (amended): the `user_count` emitted after a `user_join`, and
after a `disconnect` of a joined connection, equals the Session
Registry's live size at that instant (the size of the just-updated
registry); a disconnect of a connection that never joined emits no
events at all. -/
theorem c4_user_count_matches_registry (users : JsMap Participant) (st : ServerState)
    (sid : ConnId) (username : String) (now : Nat) :
    (handleUserJoin users sid username now).2 =
      [(Dest.toOthers sid, OutEvent.user_joined username (username ++ " joined the chat")),
       (Dest.toAll, OutEvent.user_count (mapSize (handleUserJoin users sid username now).1))] ∧
    (∀ u, mapGet st.connectedUsers sid = some u →
      (handleDisconnect st sid).2 =
        [(Dest.toOthers sid, OutEvent.user_left u.username (u.username ++ " left the chat")),
         (Dest.toAll, OutEvent.user_count (mapSize (handleDisconnect st sid).1.connectedUsers))]) ∧
    (mapGet st.connectedUsers sid = none → (handleDisconnect st sid).2 = []) := by
  refine ⟨rfl, ?_, ?_⟩
  · intro u hu
    simp [handleDisconnect, hu]
  · intro hn
    simp [handleDisconnect, hn]

/-- Witness for C4 at concrete registries. -/
theorem c4_witness :
    (handleUserJoin [] 0 "Alice" 3).2 =
      [(Dest.toOthers 0, OutEvent.user_joined "Alice" ("Alice" ++ " joined the chat")),
       (Dest.toAll, OutEvent.user_count (mapSize (handleUserJoin [] 0 "Alice" 3).1))] ∧
    (handleDisconnect ⟨[(0, ⟨"Alice", 2⟩)], []⟩ 0).2 =
      [(Dest.toOthers 0, OutEvent.user_left "Alice" ("Alice" ++ " left the chat")),
       (Dest.toAll, OutEvent.user_count
         (mapSize (handleDisconnect ⟨[(0, ⟨"Alice", 2⟩)], []⟩ 0).1.connectedUsers))] ∧
    (handleDisconnect ⟨[(1, ⟨"Bob", 5⟩)], []⟩ 2).2 = [] :=
  ⟨(c4_user_count_matches_registry [] ⟨[], []⟩ 0 "Alice" 3).1,
   (c4_user_count_matches_registry [] ⟨[(0, ⟨"Alice", 2⟩)], []⟩ 0 "Alice" 3).2.1
     ⟨"Alice", 2⟩ rfl,
   (c4_user_count_matches_registry [] ⟨[(1, ⟨"Bob", 5⟩)], []⟩ 2 "Alice" 3).2.2 rfl⟩

/-- C5: a `message` event from a connection absent from the Session
Registry yields, in both server variants, exactly one `error` event
emitted directly to the sender, no broadcast of any kind, and a
completely unchanged state (registry and context store). -/
theorem c5_unregistered_message (st : ServerState) (st2 : ServerState2) (sid : ConnId)
    (md : MessageData) (t1 t2 : Nat) (ai : AiResult)
    (h1 : mapGet st.connectedUsers sid = none)
    (h2 : mapGet st2.connectedUsers sid = none) :
    handleMessage1 st sid md t1 t2 ai =
      (st, [(Dest.toSender sid, OutEvent.error "User not found. Please reconnect.")]) ∧
    handleMessage2 st2 sid md t1 t2 ai =
      (st2, [(Dest.toSender sid, OutEvent.error "User not found. Please reconnect.")]) := by
  constructor
  · simp [handleMessage1, h1]
  · simp [handleMessage2, h2]

/-- Witness for C5 on empty registries. -/
theorem c5_witness :
    handleMessage1 ⟨[], []⟩ 0 ⟨"hi", "Alice"⟩ 1000 1005 (Except.ok "yo") =
      (⟨[], []⟩, [(Dest.toSender 0, OutEvent.error "User not found. Please reconnect.")]) ∧
    handleMessage2 ⟨[]⟩ 0 ⟨"hi", "Alice"⟩ 1000 1005 (Except.ok "yo") =
      (⟨[]⟩, [(Dest.toSender 0, OutEvent.error "User not found. Please reconnect.")]) :=
  c5_unregistered_message ⟨[], []⟩ ⟨[]⟩ 0 ⟨"hi", "Alice"⟩ 1000 1005 (Except.ok "yo") rfl rfl

/-- C6: a `typing` event from an unregistered connection is silently
ignored — no outbound event, no `error`, and the handler changes no
state (it only reads the registry); from a registered connection a
single `user_typing` carrying the registry-stored username is
re-emitted to all other connections, never to the sender. -/
theorem c6_typing_silent_or_rebroadcast (users : JsMap Participant) (sid : ConnId) (b : Bool) :
    (mapGet users sid = none → handleTyping users sid b = []) ∧
    ∀ u, mapGet users sid = some u →
      handleTyping users sid b = [(Dest.toOthers sid, OutEvent.user_typing u.username b)] := by
  constructor
  · intro h
    simp [handleTyping, h]
  · intro u h
    simp [handleTyping, h]

/-- Witness for C6 on an empty and a one-entry registry. -/
theorem c6_witness :
    handleTyping [] 0 true = [] ∧
    handleTyping [(0, ⟨"Alice", 2⟩)] 0 true =
      [(Dest.toOthers 0, OutEvent.user_typing "Alice" true)] :=
  ⟨(c6_typing_silent_or_rebroadcast [] 0 true).1 rfl,
   (c6_typing_silent_or_rebroadcast [(0, ⟨"Alice", 2⟩)] 0 true).2 ⟨"Alice", 2⟩ rfl⟩

/-- C7 counterexample: with the AI call taking 5 ms (`Date.now()`
advancing from 1000 to 1005 between the two emits), the `ai_message`
id is 1006 while the `user_message` id is 1000, so the ai id is not
the user id plus 1. -/
theorem c7_counterexample :
    firstAiMessageId (handleMessage1 ⟨[(0, ⟨"Alice", 5⟩)], []⟩ 0 ⟨"hi", "Alice"⟩ 1000 1005
        (Except.ok "yo")).2 ≠
      (firstUserMessageId (handleMessage1 ⟨[(0, ⟨"Alice", 5⟩)], []⟩ 0 ⟨"hi", "Alice"⟩ 1000 1005
        (Except.ok "yo")).2).map (· + 1) := by decide

/-- C7 (amended): the `user_message` id is the `Date.now()` reading at
its emission and the `ai_message` id is the `Date.now()` reading at its
own (later) emission plus 1; the ai id therefore equals the user id
plus 1 exactly when the two readings fall in the same millisecond tick. -/
theorem c7_message_ids (st : ServerState) (sid : ConnId) (md : MessageData)
    (t1 t2 : Nat) (u : Participant) (reply : String)
    (h : mapGet st.connectedUsers sid = some u) :
    firstUserMessageId (handleMessage1 st sid md t1 t2 (Except.ok reply)).2 = some t1 ∧
    firstAiMessageId (handleMessage1 st sid md t1 t2 (Except.ok reply)).2 = some (t2 + 1) ∧
    (t2 = t1 →
      firstAiMessageId (handleMessage1 st sid md t1 t2 (Except.ok reply)).2 =
        (firstUserMessageId (handleMessage1 st sid md t1 t2 (Except.ok reply)).2).map (· + 1)) := by
  refine ⟨?_, ?_, ?_⟩
  · simp [handleMessage1, h, firstUserMessageId]
  · simp [handleMessage1, h, firstAiMessageId]
  · intro he
    subst he
    simp [handleMessage1, h, firstAiMessageId, firstUserMessageId]

/-- Witness for C7 with both clock readings in the same tick. -/
theorem c7_witness :
    firstUserMessageId (handleMessage1 ⟨[(0, ⟨"Alice", 5⟩)], []⟩ 0 ⟨"hi", "Alice"⟩ 1000 1000
        (Except.ok "yo")).2 = some 1000 ∧
    firstAiMessageId (handleMessage1 ⟨[(0, ⟨"Alice", 5⟩)], []⟩ 0 ⟨"hi", "Alice"⟩ 1000 1000
        (Except.ok "yo")).2 = some 1001 ∧
    (1000 = 1000 →
      firstAiMessageId (handleMessage1 ⟨[(0, ⟨"Alice", 5⟩)], []⟩ 0 ⟨"hi", "Alice"⟩ 1000 1000
          (Except.ok "yo")).2 =
        (firstUserMessageId (handleMessage1 ⟨[(0, ⟨"Alice", 5⟩)], []⟩ 0 ⟨"hi", "Alice"⟩ 1000 1000
          (Except.ok "yo")).2).map (· + 1)) :=
  c7_message_ids ⟨[(0, ⟨"Alice", 5⟩)], []⟩ 0 ⟨"hi", "Alice"⟩ 1000 1000 ⟨"Alice", 5⟩ "yo" rfl

/-- C8: the `historyString` construction renders exactly the spec's
description: the turns in chronological order (oldest first), one line
per turn `<Role>: <content>` with label `User` for user turns and
`Buddy` for assistant turns, joined by newline characters — here
proved as equality with the spec-side recursive rendering for every
context, in particular every non-empty one. -/
theorem c8_render_matches_spec : ∀ hist : List Turn, historyString hist = renderSpec hist := by
  intro hist
  induction hist with
  | nil => rfl
  | cons t ts ih =>
    cases ts with
    | nil => cases t with
      | mk r c => cases r <;> rfl
    | cons t' ts' =>
      have key : historyString (t :: t' :: ts') =
          (((if t.role = Role.user then "User" else "Buddy") ++ ": " ++ t.content) ++ "\n") ++
            historyString (t' :: ts') :=
        intercalate_go_append "\n"
          (ts'.map (fun msg =>
            (if msg.role = Role.user then "User" else "Buddy") ++ ": " ++ msg.content))
          (((if t.role = Role.user then "User" else "Buddy") ++ ": " ++ t.content) ++ "\n")
          ((if t'.role = Role.user then "User" else "Buddy") ++ ": " ++ t'.content)
      have hfmt : (if t.role = Role.user then "User" else "Buddy") = roleLabel t.role := by
        cases t.role <;> rfl
      rw [key, ih, hfmt]
      rfl

/-- C9: `user_join` stores a Participant with the given username and
the current time under the connection id — overwriting any
pre-existing entry for the same id and leaving every other entry
untouched (replace, not merge; the operation is total) — and emits a
`user_joined` to all other connections followed by a `user_count` with
the updated registry size to all connections including the new one. -/
theorem c9_join_registers_participant (users : JsMap Participant) (sid : ConnId)
    (username : String) (now : Nat) :
    mapGet (handleUserJoin users sid username now).1 sid = some ⟨username, now⟩ ∧
    (∀ k, k ≠ sid → mapGet (handleUserJoin users sid username now).1 k = mapGet users k) ∧
    (handleUserJoin users sid username now).2 =
      [(Dest.toOthers sid, OutEvent.user_joined username (username ++ " joined the chat")),
       (Dest.toAll, OutEvent.user_count (mapSize (handleUserJoin users sid username now).1))] :=
  ⟨mapGet_set_self users sid ⟨username, now⟩,
   fun k hk => mapGet_set_ne users sid k ⟨username, now⟩ hk,
   rfl⟩

/-- Witness for C9: joining over a pre-existing entry replaces it. -/
theorem c9_witness :
    mapGet (handleUserJoin [(0, ⟨"Old", 1⟩), (1, ⟨"Bob", 2⟩)] 0 "Alice" 3).1 0 =
      some ⟨"Alice", 3⟩ ∧
    mapGet (handleUserJoin [(0, ⟨"Old", 1⟩), (1, ⟨"Bob", 2⟩)] 0 "Alice" 3).1 1 =
      mapGet [(0, ⟨"Old", 1⟩), (1, ⟨"Bob", 2⟩)] 1 ∧
    (handleUserJoin [(0, ⟨"Old", 1⟩), (1, ⟨"Bob", 2⟩)] 0 "Alice" 3).2 =
      [(Dest.toOthers 0, OutEvent.user_joined "Alice" ("Alice" ++ " joined the chat")),
       (Dest.toAll, OutEvent.user_count
         (mapSize (handleUserJoin [(0, ⟨"Old", 1⟩), (1, ⟨"Bob", 2⟩)] 0 "Alice" 3).1))] :=
  ⟨(c9_join_registers_participant [(0, ⟨"Old", 1⟩), (1, ⟨"Bob", 2⟩)] 0 "Alice" 3).1,
   (c9_join_registers_participant [(0, ⟨"Old", 1⟩), (1, ⟨"Bob", 2⟩)] 0 "Alice" 3).2.1 1
     (by decide),
   (c9_join_registers_participant [(0, ⟨"Old", 1⟩), (1, ⟨"Bob", 2⟩)] 0 "Alice" 3).2.2⟩

/-- C10: the `user_message` broadcast carries the username verbatim
from the inbound payload (`messageData.username`), not from the
sender's registry entry, while `user_typing` and `user_left` always
carry the registry-stored username. -/
theorem c10_username_sources (st : ServerState) (sid : ConnId) (md : MessageData)
    (t1 t2 : Nat) (ai : AiResult) (u : Participant) (b : Bool)
    (h : mapGet st.connectedUsers sid = some u) :
    (∃ rest, (handleMessage1 st sid md t1 t2 ai).2 =
      (Dest.toAll, OutEvent.user_message t1 md.username md.message) :: rest) ∧
    handleTyping st.connectedUsers sid b =
      [(Dest.toOthers sid, OutEvent.user_typing u.username b)] ∧
    (handleDisconnect st sid).2 =
      [(Dest.toOthers sid, OutEvent.user_left u.username (u.username ++ " left the chat")),
       (Dest.toAll, OutEvent.user_count (mapSize (mapDelete st.connectedUsers sid)))] := by
  refine ⟨?_, by simp [handleTyping, h], by simp [handleDisconnect, h]⟩
  unfold handleMessage1
  rw [h]
  cases ai with
  | ok r => exact ⟨_, rfl⟩
  | error e => exact ⟨_, rfl⟩

/-- Witness for C10: registered as Alice, the payload says Bob — the
`user_message` echoes Bob while typing/left events say Alice. -/
theorem c10_witness :
    (∃ rest, (handleMessage1 ⟨[(0, ⟨"Alice", 5⟩)], []⟩ 0 ⟨"hi", "Bob"⟩ 1000 1005
        (Except.ok "yo")).2 =
      (Dest.toAll, OutEvent.user_message 1000 "Bob" "hi") :: rest) ∧
    handleTyping [(0, ⟨"Alice", 5⟩)] 0 true =
      [(Dest.toOthers 0, OutEvent.user_typing "Alice" true)] ∧
    (handleDisconnect ⟨[(0, ⟨"Alice", 5⟩)], []⟩ 0).2 =
      [(Dest.toOthers 0, OutEvent.user_left "Alice" ("Alice" ++ " left the chat")),
       (Dest.toAll, OutEvent.user_count (mapSize (mapDelete ([(0, ⟨"Alice", 5⟩)] : JsMap Participant) 0)))] ∧
    ("Bob" : String) ≠ "Alice" :=
  have base := c10_username_sources ⟨[(0, ⟨"Alice", 5⟩)], []⟩ 0 ⟨"hi", "Bob"⟩ 1000 1005
    (Except.ok "yo") ⟨"Alice", 5⟩ true rfl
  ⟨base.1, base.2.1, base.2.2, by decide⟩
